import Mathlib

/-!
Verification of the AI PDF chatbot backend (`backend/app/main.py`) against its
natural-language specification.

The development shallowly embeds the backend's operations:
* the chunking policy (chunk size / overlap) used at ingestion,
* `process_document` (the background ingestion worker),
* `save_chat` (chat persistence with internal exception capture),
* `ask_question` (the query endpoint),
* `upload_pdf` (the upload endpoint), and
* the SQL query issued by `get_chats`.

External effects (the QA chain invocation, database inserts) are passed in as
explicit outcome values (`Except`), so the control flow of each handler is
modelled exactly while the environment stays abstract.
-/

/-! ## Chunker

Modelled from the spec: the text splitter used at ingestion is
`RecursiveCharacterTextSplitter(chunk_size=1000, chunk_overlap=200)` from the
third-party langchain library, whose code is not part of this repository.
Section 4.1 of the spec gives its contract: split text into chunks of at most
the configured maximum length `C`, with the configured overlap `O` (`O < C`)
between consecutive chunks, preserving order; a document shorter than the
chunk size yields exactly one passage.  Page attribution is not involved in
the claims about the chunker and is omitted.

A passage records its character offset into the document and its text.
Consecutive chunk starts advance by the stride `C - O`, which yields exactly
`O` characters of overlap between consecutive chunks.
-/

/-- A chunk of the document text: its start offset and its character content. -/
structure Passage where
  start : Nat
  text : List Char
deriving DecidableEq, Repr

/-- The list of half-open character ranges `(start, stop)` of the chunks of a
document of length `n`, beginning at offset `a`: each chunk spans at most `C`
characters and successive chunks start `s` characters apart. -/
def chunkRangesAux (C s n : Nat) (hs : 0 < s) (a : Nat) : List (Nat × Nat) :=
  if n ≤ a + C then [(a, n)]
  else (a, a + C) :: chunkRangesAux C s n hs (a + s)
termination_by n - a
decreasing_by omega

/-- Modelled from the spec: `split(document_text)` — chunk the text into
passages of at most `C` characters with exactly `O` characters of overlap
between consecutive passages. -/
def split_text (C O : Nat) (hOC : O < C) (t : List Char) : List Passage :=
  (chunkRangesAux C (C - O) t.length (by omega) 0).map
    (fun r => { start := r.1, text := (t.drop r.1).take (r.2 - r.1) })

theorem chunkRangesAux_head (C s n : Nat) (hs : 0 < s) (a : Nat) :
    (chunkRangesAux C s n hs a).head? = some (a, min n (a + C)) := by
  rw [chunkRangesAux]
  split
  · next h => simp [Nat.min_eq_left h]
  · next h => simp [Nat.min_eq_right (by omega : a + C ≤ n)]

theorem chunkRangesAux_mem (C s n : Nat) (hs : 0 < s) (hsC : s ≤ C) :
    ∀ k a, n - a ≤ k → a ≤ n →
      ∀ r ∈ chunkRangesAux C s n hs a, a ≤ r.1 ∧ r.1 ≤ r.2 ∧ r.2 ≤ n ∧ r.2 - r.1 ≤ C := by
  intro k
  induction k with
  | zero =>
    intro a hk ha r hr
    rw [chunkRangesAux] at hr
    rw [if_pos (by omega)] at hr
    simp only [List.mem_singleton] at hr
    subst hr
    simp only
    omega
  | succ k ih =>
    intro a hk ha r hr
    rw [chunkRangesAux] at hr
    by_cases h : n ≤ a + C
    · rw [if_pos h] at hr
      simp only [List.mem_singleton] at hr
      subst hr
      simp only
      omega
    · rw [if_neg h] at hr
      simp only [List.mem_cons] at hr
      rcases hr with hr | hr
      · subst hr
        simp only
        omega
      · have := ih (a + s) (by omega) (by omega) r hr
        omega

theorem chunkRangesAux_chain (C s n : Nat) (hs : 0 < s) (hsC : s ≤ C) :
    ∀ k a, n - a ≤ k →
      List.Chain' (fun r₁ r₂ : Nat × Nat =>
          r₁.2 = r₂.1 + (C - s) ∧ r₂.1 = r₁.1 + s ∧ r₁.1 ≤ r₁.2 ∧ r₁.2 ≤ n)
        (chunkRangesAux C s n hs a) := by
  intro k
  induction k with
  | zero =>
    intro a hk
    rw [chunkRangesAux, if_pos (by omega)]
    simp
  | succ k ih =>
    intro a hk
    rw [chunkRangesAux]
    by_cases h : n ≤ a + C
    · rw [if_pos h]
      simp
    · rw [if_neg h]
      rw [List.chain'_cons']
      refine ⟨?_, ih (a + s) (by omega)⟩
      intro b hb
      rw [chunkRangesAux_head] at hb
      simp only [Option.mem_def, Option.some.injEq] at hb
      subst hb
      refine ⟨by omega, by omega, by omega, by omega⟩

theorem chunkRangesAux_2400 (hs : 0 < 1000 - 200) :
    chunkRangesAux 1000 (1000 - 200) 2400 hs 0
      = [(0, 1000), (800, 1800), (1600, 2400)] := by
  rw [chunkRangesAux, if_neg (by omega)]
  rw [chunkRangesAux, if_neg (by omega)]
  rw [chunkRangesAux, if_pos (by omega)]

/-- C5: with chunk size `C` and overlap `O` (`O < C`), the chunker produces
passages of length at most `C`, consecutive passages overlap by exactly `O`
characters (the end offset of each passage is `O` past the start of its
successor, whose start advances by `C - O`), and a 2400-character text with
the default configuration (`C = 1000`, `O = 200`) yields exactly 3 passages
with starts 0, 800, 1600 — Passage 1 starting 800 characters into Passage 0. -/
theorem split_text_overlap (C O : Nat) (hOC : O < C) (t : List Char) :
    (∀ p ∈ split_text C O hOC t, p.text.length ≤ C) ∧
    List.Chain' (fun p q =>
        q.start + O = p.start + p.text.length ∧ q.start = p.start + (C - O))
      (split_text C O hOC t) ∧
    (split_text 1000 200 (by omega) (List.replicate 2400 'x')).map Passage.start
      = [0, 800, 1600] ∧
    (split_text 1000 200 (by omega) (List.replicate 2400 'x')).map
        (fun p => p.text.length)
      = [1000, 1000, 800] := by
  refine ⟨?_, ?_, ?_, ?_⟩
  · intro p hp
    unfold split_text at hp
    simp only [List.mem_map] at hp
    obtain ⟨r, hr, hpr⟩ := hp
    have hmem := chunkRangesAux_mem C (C - O) t.length (by omega) (by omega)
      (t.length - 0) 0 (by omega) (by omega) r hr
    subst hpr
    simp only [List.length_take, List.length_drop]
    omega
  · unfold split_text
    rw [List.chain'_map]
    have hch := chunkRangesAux_chain C (C - O) t.length (by omega) (by omega)
      (t.length - 0) 0 (by omega)
    refine hch.imp ?_
    intro r₁ r₂ hr
    obtain ⟨h1, h2, h3, h4⟩ := hr
    simp only [List.length_take, List.length_drop]
    omega
  · unfold split_text
    simp only [List.length_replicate]
    rw [chunkRangesAux_2400]
    simp only [List.map_cons, List.map_nil]
  · unfold split_text
    simp only [List.length_replicate]
    rw [chunkRangesAux_2400]
    simp only [List.map_cons, List.map_nil, List.length_take, List.length_drop,
      List.length_replicate]
    norm_num

/-- Closed witness for `split_text_overlap` at the default configuration on a
2400-character text. -/
theorem split_text_overlap_witness :
    (200 : Nat) < 1000 ∧
    List.Chain' (fun p q =>
        q.start + 200 = p.start + p.text.length ∧ q.start = p.start + (1000 - 200))
      (split_text 1000 200 (by omega) (List.replicate 2400 'x')) :=
  ⟨by omega, (split_text_overlap 1000 200 (by omega) (List.replicate 2400 'x')).2.1⟩

/-- C6: a document shorter than the chunk size yields exactly one passage,
and that passage covers the whole text (it starts at offset 0 and its content
is the entire document text). -/
theorem split_text_short (C O : Nat) (hOC : O < C) (t : List Char)
    (h : t.length < C) :
    split_text C O hOC t = [{ start := 0, text := t }] := by
  unfold split_text
  rw [chunkRangesAux, if_pos (by omega)]
  simp

/-- Closed witness for `split_text_short`: a 2-character document with the
default configuration yields the single passage covering it. -/
theorem split_text_short_witness :
    (['h', 'i'] : List Char).length < 1000 ∧
    split_text 1000 200 (by omega) ['h', 'i'] = [{ start := 0, text := ['h', 'i'] }] :=
  ⟨by decide, split_text_short 1000 200 (by omega) ['h', 'i'] (by decide)⟩

/-! ## Backend handlers

Shallow embedding of `backend/app/main.py`.  The handlers' control flow is
translated exactly; the outcomes of external calls (PDF pipeline, QA chain,
database inserts) are supplied as explicit `Except` values, where `.error`
models the call raising a Python exception with the given message.
-/

/-- An HTTP error as raised by `HTTPException(status_code, detail)`. -/
structure HTTPError where
  status : Nat
  detail : String
deriving DecidableEq, Repr

/-- A langchain source document as seen by `ask_question`: its text content
and its `page` metadata entry, `none` when the metadata lacks a page. -/
structure SourceDoc where
  content : String
  page : Option Nat
deriving DecidableEq, Repr

/-- The value of `qa_chain({"query": question})`: the generated answer
(`result["result"]`) and the retrieved passages (`result["source_documents"]`). -/
structure QAOutput where
  result : String
  source_documents : List SourceDoc
deriving DecidableEq, Repr

/-- The response model of `/ask` (`ChatResponse`). -/
structure ChatResponse where
  answer : String
  sources : List String
  document_id : String
deriving DecidableEq, Repr

/-- The response model of `/upload` (`UploadResponse`). -/
structure UploadResponse where
  message : String
  document_id : String
deriving DecidableEq, Repr

/-- The mutable backend state touched by the handlers: the in-memory
`vector_stores` dict (modelled by its list of keys, insertion-ordered) and
the `documents` table of the SQLite database. -/
structure BackendState where
  vector_stores : List String
  documents_db : List (String × String)
deriving DecidableEq, Repr

/-- The citation label built at `main.py:169`: `f"Page {doc.metadata['page'] + 1}"`,
for a document that has page metadata. -/
def pageLabel (d : SourceDoc) : Option String :=
  d.page.map (fun p => "Page " ++ toString (p + 1))

/-- The source-extraction loop of `ask_question` (`main.py:166-169`): walk the
retrieved documents in order and append a page label for each one that has
page metadata, silently skipping the others. -/
def extract_sources (docs : List SourceDoc) : List String :=
  docs.filterMap pageLabel

/-- `save_chat` (`main.py:107-118`): attempt the chat-table insert, and catch
any exception internally (print it and fall through), so the function never
raises to its caller.  `dbInsert` is the outcome of the insert. -/
def save_chat (dbInsert : Except String Unit) : Except String Unit :=
  match dbInsert with
  | .ok _ => .ok ()
  | .error _ => .ok ()

/-- `ask_question` (`main.py:145-180`): reject a `document_id` missing from
`vector_stores` with HTTP 400; otherwise run the QA chain, extract page
citations, save the chat, and return the answer.  Any exception inside the
`try` block is caught and rewrapped as HTTP 500 with the exception's message.
`qa_chain` is the outcome of the retrieval-QA invocation for a given
question; `dbInsert` is the outcome of the chat-table insert inside
`save_chat`. -/
def ask_question (vector_stores : List String) (document_id question : String)
    (qa_chain : String → Except String QAOutput)
    (dbInsert : Except String Unit) : Except HTTPError ChatResponse :=
  if document_id ∈ vector_stores then
    match qa_chain question with
    | .ok result =>
      let sources := extract_sources result.source_documents
      match save_chat dbInsert with
      | .ok _ =>
        .ok { answer := result.result, sources := sources, document_id := document_id }
      | .error e =>
        .error { status := 500, detail := "Error processing question: " ++ e }
    | .error e =>
      .error { status := 500, detail := "Error processing question: " ++ e }
  else
    .error { status := 400, detail := "Document not found or still processing" }

/-- `process_document` (`main.py:76-105`): run the ingestion pipeline (load
the PDF, split it, embed and build the FAISS store — `pipeline` is the joint
outcome of those steps), publish the store under `document_id`, then insert
the document row into the database.  Any exception is caught by the
surrounding `try`, printed, and turned into the return value `False`; nothing
else is recorded about the failure. -/
def process_document (st : BackendState) (document_id file_name : String)
    (pipeline : Except String Unit) (dbInsert : Except String Unit) :
    Bool × BackendState :=
  match pipeline with
  | .error _ => (false, st)
  | .ok _ =>
    let st' : BackendState :=
      { st with vector_stores := st.vector_stores ++ [document_id] }
    match dbInsert with
    | .error _ => (false, st')
    | .ok _ =>
      (true, { st' with documents_db := st'.documents_db ++ [(document_id, file_name)] })

/-- Observable side effects of a single `/upload` request, before any
background processing runs. -/
structure UploadEffects where
  temp_file : Option String
  generated_id : Option String
  scheduled : Bool
deriving DecidableEq, Repr

/-- `upload_pdf` (`main.py:120-143`) on the FastAPI path where
`background_tasks` is provided: reject a non-PDF content type with HTTP 400
before anything else happens; otherwise write the uploaded bytes to a
temporary file, generate a fresh `document_id`, schedule `process_document`
as a background task, and return immediately.  The backend state is returned
unchanged in both branches — ingestion has not run yet when the handler
returns. -/
def upload_pdf (st : BackendState) (content_type content fresh_id : String) :
    Except HTTPError UploadResponse × BackendState × UploadEffects :=
  if content_type ≠ "application/pdf" then
    (.error { status := 400, detail := "Only PDF files are allowed" }, st,
     { temp_file := none, generated_id := none, scheduled := false })
  else
    (.ok { message := "PDF is being processed. You can start asking questions shortly.",
           document_id := fresh_id }, st,
     { temp_file := some content, generated_id := some fresh_id, scheduled := true })

/-- A SQL statement as handed to `cursor.execute`: the statement text and the
bound parameter tuple. -/
structure SqlQuery where
  text : String
  params : List String
deriving DecidableEq, Repr

/-- The query issued by `get_chats` (`main.py:207-208`): the statement text
is a literal with a `?` placeholder and `document_id` is passed in the
parameter tuple. -/
def get_chats_query (document_id : String) : SqlQuery :=
  { text := "SELECT question, answer, created_at FROM chats WHERE document_id = ? ORDER BY created_at",
    params := [document_id] }

/-- A QA-chain stub for scenarios in which the chain is never reached. -/
def qaUnreached : String → Except String QAOutput :=
  fun _ => .error "unreached"

/-- A QA-chain stub returning one passage without page metadata and one on
page 1 (0-based), for concrete scenarios. -/
def qaMixedPages : String → Except String QAOutput :=
  fun _ => .ok { result := "ans",
                 source_documents := [{ content := "a", page := none },
                                      { content := "b", page := some 1 }] }

theorem mem_extract_sources (docs : List SourceDoc) (x : String) :
    x ∈ extract_sources docs →
      ∃ d ∈ docs, ∃ p, d.page = some p ∧ x = "Page " ++ toString (p + 1) := by
  intro hx
  unfold extract_sources at hx
  rw [List.mem_filterMap] at hx
  obtain ⟨d, hd, hdx⟩ := hx
  refine ⟨d, hd, ?_⟩
  unfold pageLabel at hdx
  cases hp : d.page with
  | none => rw [hp] at hdx; simp at hdx
  | some p =>
    rw [hp] at hdx
    simp only [Option.map_some', Option.some.injEq] at hdx
    exact ⟨p, rfl, hdx.symm⟩

theorem extract_sources_length (docs : List SourceDoc) :
    (extract_sources docs).length
      = (docs.filter (fun d => d.page.isSome)).length := by
  induction docs with
  | nil => rfl
  | cons d ds ih =>
    unfold extract_sources at *
    cases hp : d.page with
    | none => simp [List.filterMap_cons, List.filter_cons, pageLabel, hp, ih]
    | some p => simp [List.filterMap_cons, List.filter_cons, pageLabel, hp, ih]

/-- C1 counterexample: a successful upload registers nothing synchronously
(the pending document has no entry in `vector_stores`), and `ask_question`
then returns the identical HTTP 400 error for that pending document and for
an identifier that was never uploaded — the NotFound case is not
distinguishable from the NotReady case. -/
theorem ask_notfound_equals_notready :
    (upload_pdf { vector_stores := [], documents_db := [] }
        ("application/pdf") ("bytes") ("d1")).2.1
      = { vector_stores := [], documents_db := [] } ∧
    ask_question [] "d1" "q" qaUnreached (.ok ())
      = ask_question [] "never-seen" "q" qaUnreached (.ok ()) ∧
    ask_question [] "d1" "q" qaUnreached (.ok ())
      = .error { status := 400, detail := "Document not found or still processing" } :=
  ⟨rfl, rfl, rfl⟩

/-- C1 (amended): every `document_id` absent from the registry — whether never
uploaded, still processing, or failed — yields the one merged HTTP 400 error
`"Document not found or still processing"`; the code does not distinguish
NotFound from NotReady. -/
theorem ask_missing_single_error (stores : List String) (id q : String)
    (qa : String → Except String QAOutput) (db : Except String Unit)
    (h : id ∉ stores) :
    ask_question stores id q qa db
      = .error { status := 400, detail := "Document not found or still processing" } := by
  unfold ask_question
  rw [if_neg h]

/-- Closed witness for `ask_missing_single_error` on an empty registry. -/
theorem ask_missing_single_error_witness :
    ("ghost" ∉ ([] : List String)) ∧
    ask_question [] "ghost" "q" qaUnreached (.ok ())
      = .error { status := 400, detail := "Document not found or still processing" } :=
  ⟨by simp, ask_missing_single_error [] "ghost" "q" qaUnreached (.ok ()) (by simp)⟩

/-- C2 counterexample: two retrieved passages on the same page produce the
citation list `["Page 1", "Page 1"]` — `ask_question` does not deduplicate
`cited_pages`, refuting the claim that no page number appears more than
once. -/
theorem ask_cited_pages_not_deduplicated :
    ask_question ["doc1"] "doc1" "q"
      (fun _ => .ok { result := "ans",
                      source_documents := [{ content := "a", page := some 0 },
                                           { content := "b", page := some 0 }] })
      (.ok ())
      = .ok { answer := "ans", sources := ["Page 1", "Page 1"], document_id := "doc1" } ∧
    ¬ (["Page 1", "Page 1"] : List String).Nodup :=
  ⟨rfl, by decide⟩

/-- C2 (amended): for every successful ask, `cited_pages` is the
order-preserving list of page labels of exactly those retrieved passages that
carry page metadata — so every element is the page label of a passage
actually retrieved for the question — but the list is not deduplicated. -/
theorem ask_cited_pages_from_retrieval (stores : List String) (id q : String)
    (qa : String → Except String QAOutput) (db : Except String Unit) (r : QAOutput)
    (hm : id ∈ stores) (hq : qa q = .ok r) :
    ∃ resp, ask_question stores id q qa db = .ok resp ∧
      resp.sources = extract_sources r.source_documents ∧
      ∀ x ∈ resp.sources, ∃ d ∈ r.source_documents,
        ∃ p, d.page = some p ∧ x = "Page " ++ toString (p + 1) := by
  have hresp : ask_question stores id q qa db
      = .ok { answer := r.result, sources := extract_sources r.source_documents,
              document_id := id } := by
    unfold ask_question
    rw [if_pos hm, hq]
    cases db <;> rfl
  exact ⟨_, hresp, rfl, fun x hx => mem_extract_sources r.source_documents x hx⟩

/-- Closed witness for `ask_cited_pages_from_retrieval` on a two-passage
retrieval. -/
theorem ask_cited_pages_from_retrieval_witness :
    ∃ resp, ask_question ["d"] "d" "q" qaMixedPages (.ok ()) = .ok resp ∧
      resp.sources = extract_sources [{ content := "a", page := none },
                                      { content := "b", page := some 1 }] ∧
      ∀ x ∈ resp.sources,
        ∃ d ∈ [({ content := "a", page := none } : SourceDoc),
               { content := "b", page := some 1 }],
          ∃ p, d.page = some p ∧ x = "Page " ++ toString (p + 1) :=
  ask_cited_pages_from_retrieval ["d"] "d" "q" qaMixedPages (.ok ())
    { result := "ans", source_documents := [{ content := "a", page := none },
                                            { content := "b", page := some 1 }] }
    (by simp) rfl

/-- C3 counterexample: the NotReady situation (uploaded, still processing)
and the NotFound situation (never uploaded) produce literally equal error
values, and the generation-side failures are rewrapped into the one generic
HTTP 500 shape — the query-time failure taxonomy is collapsed, refuting the
claim that each failure kind reaches the caller as a distinguishable error
value. -/
theorem ask_failure_taxonomy_collapsed :
    ask_question [] "still-processing" "q" qaUnreached (.ok ())
      = ask_question [] "no-such-doc" "q" qaUnreached (.ok ()) ∧
    ask_question ["d"] "d" "q" (fun _ => .error "GenerationUnavailable") (.ok ())
      = .error { status := 500,
                 detail := "Error processing question: GenerationUnavailable" } ∧
    ask_question ["d"] "d" "q" (fun _ => .error "InsufficientContext") (.ok ())
      = .error { status := 500,
                 detail := "Error processing question: InsufficientContext" } :=
  ⟨rfl, rfl, rfl⟩

/-- C3 (amended): query-time failures reach the caller in exactly two shapes:
a registry miss (NotFound or NotReady alike) yields HTTP 400 with the fixed
detail `"Document not found or still processing"`, and any exception raised
by the QA chain (GenerationUnavailable, InsufficientContext, …) yields HTTP
500 with the generic prefix `"Error processing question: "` followed by the
exception's message — the four kinds of the taxonomy are not pairwise
distinguishable. -/
theorem ask_error_mapping (stores : List String) (id q : String)
    (qa : String → Except String QAOutput) (db : Except String Unit) :
    (id ∉ stores →
      ask_question stores id q qa db
        = .error { status := 400,
                   detail := "Document not found or still processing" }) ∧
    (∀ e, id ∈ stores → qa q = .error e →
      ask_question stores id q qa db
        = .error { status := 500, detail := "Error processing question: " ++ e }) := by
  constructor
  · intro h
    unfold ask_question
    rw [if_neg h]
  · intro e hm hq
    unfold ask_question
    rw [if_pos hm, hq]

/-- Closed witness for `ask_error_mapping`, exercising both error shapes. -/
theorem ask_error_mapping_witness :
    ask_question [] "g" "q" qaUnreached (.ok ())
      = .error { status := 400, detail := "Document not found or still processing" } ∧
    ask_question ["d"] "d" "q" (fun _ => .error "down") (.ok ())
      = .error { status := 500, detail := "Error processing question: down" } :=
  ⟨(ask_error_mapping [] "g" "q" qaUnreached (.ok ())).1 (by simp),
   (ask_error_mapping ["d"] "d" "q" (fun _ => .error "down") (.ok ())).2 ("down")
     (by simp) rfl⟩

/-- C4 counterexample: a failing ingestion pipeline leaves the backend state
exactly as it was — no FAILED lifecycle state (nor any other record of the
failure) is written to the registry or the database; the worker merely
returns `false`, so the failed document is indistinguishable from one never
uploaded. -/
theorem process_document_no_failed_record :
    process_document { vector_stores := [], documents_db := [] } ("doc7") ("f.pdf")
      (.error "PdfReadError: corrupt file") (.ok ())
      = (false, { vector_stores := [], documents_db := [] }) :=
  rfl

/-- C4 (amended): every ingestion-pipeline failure is captured inside the
worker — `process_document` is a total function that returns `false` rather
than propagating the exception, so neither the worker nor the process
crashes — but no FAILED state is recorded anywhere: the backend state comes
back unchanged. -/
theorem process_document_failure_captured (st : BackendState)
    (id fn msg : String) (db : Except String Unit) :
    process_document st id fn (.error msg) db = (false, st) :=
  rfl

/-- C7: retrieved passages lacking page metadata are silently omitted from
the citation list rather than causing an error: a successful ask returns
`.ok`, and the citation count equals the number of retrieved passages that
carry page metadata — which can be strictly below the passage count. -/
theorem ask_drops_unpaged_passages (stores : List String) (id q : String)
    (qa : String → Except String QAOutput) (db : Except String Unit) (r : QAOutput)
    (hm : id ∈ stores) (hq : qa q = .ok r) :
    ∃ resp, ask_question stores id q qa db = .ok resp ∧
      resp.sources.length
        = (r.source_documents.filter (fun d => d.page.isSome)).length ∧
      resp.sources.length ≤ r.source_documents.length := by
  have hresp : ask_question stores id q qa db
      = .ok { answer := r.result, sources := extract_sources r.source_documents,
              document_id := id } := by
    unfold ask_question
    rw [if_pos hm, hq]
    cases db <;> rfl
  refine ⟨_, hresp, extract_sources_length r.source_documents, ?_⟩
  simp only [extract_sources_length r.source_documents]
  exact List.length_filter_le _ _

/-- Closed witness for `ask_drops_unpaged_passages`: of two retrieved
passages only one has page metadata, so one citation is produced. -/
theorem ask_drops_unpaged_passages_witness :
    ∃ resp, ask_question ["d"] "d" "q" qaMixedPages (.ok ()) = .ok resp ∧
      resp.sources.length
        = (List.filter (fun d => d.page.isSome)
            [({ content := "a", page := none } : SourceDoc),
             { content := "b", page := some 1 }]).length ∧
      resp.sources.length
        ≤ ([({ content := "a", page := none } : SourceDoc),
            { content := "b", page := some 1 }]).length :=
  ask_drops_unpaged_passages ["d"] "d" "q" qaMixedPages (.ok ())
    { result := "ans", source_documents := [{ content := "a", page := none },
                                            { content := "b", page := some 1 }] }
    (by simp) rfl

/-- C8: the chat-history lookup is parameterized: the SQL text `get_chats`
executes is one fixed constant — identical across any two runs with
different `document_id` values — and the identifier travels only in the
bound parameter tuple, never interpolated into the statement text. -/
theorem get_chats_query_parameterized (d₁ d₂ : String) :
    (get_chats_query d₁).text = (get_chats_query d₂).text ∧
    (get_chats_query d₁).text
      = "SELECT question, answer, created_at FROM chats WHERE document_id = ? ORDER BY created_at" ∧
    (get_chats_query d₁).params = [d₁] :=
  ⟨rfl, rfl, rfl⟩

/-- C9: an upload whose content type is not `application/pdf` is rejected
with HTTP 400 before anything happens: no temporary file is written, no
document id is generated, no processing is scheduled, and the backend state
is unchanged. -/
theorem upload_rejects_non_pdf (st : BackendState) (ct content fresh : String)
    (h : ct ≠ "application/pdf") :
    upload_pdf st ct content fresh
      = (.error { status := 400, detail := "Only PDF files are allowed" }, st,
         { temp_file := none, generated_id := none, scheduled := false }) := by
  unfold upload_pdf
  rw [if_pos h]

/-- Closed witness for `upload_rejects_non_pdf` on a plain-text upload. -/
theorem upload_rejects_non_pdf_witness :
    ("text/plain" : String) ≠ "application/pdf" ∧
    upload_pdf { vector_stores := [], documents_db := [] }
        ("text/plain") ("body") ("id1")
      = (.error { status := 400, detail := "Only PDF files are allowed" },
         { vector_stores := [], documents_db := [] },
         { temp_file := none, generated_id := none, scheduled := false }) :=
  ⟨by decide,
   upload_rejects_non_pdf { vector_stores := [], documents_db := [] }
     ("text/plain") ("body") ("id1") (by decide)⟩

/-- C10: chat-log persistence failure cannot turn a successful answer into an
error response: `save_chat` returns `.ok` for every insert outcome (it
catches every exception internally), and consequently `ask_question` returns
the generated answer for every chat-insert outcome, including failing ones. -/
theorem ask_survives_save_chat_failure (stores : List String) (id q : String)
    (qa : String → Except String QAOutput) (r : QAOutput)
    (hm : id ∈ stores) (hq : qa q = .ok r) :
    (∀ db, save_chat db = .ok ()) ∧
    ∀ db, ask_question stores id q qa db
      = .ok { answer := r.result, sources := extract_sources r.source_documents,
              document_id := id } := by
  constructor
  · intro db
    cases db <;> rfl
  · intro db
    unfold ask_question
    rw [if_pos hm, hq]
    cases db <;> rfl

/-- Closed witness for `ask_survives_save_chat_failure`: the insert fails
with a locked database, yet the answer is returned. -/
theorem ask_survives_save_chat_failure_witness :
    ask_question ["d"] "d" "q" qaMixedPages (.error "database is locked")
      = .ok { answer := "ans", sources := ["Page 2"], document_id := "d" } := by
  have h := (ask_survives_save_chat_failure ["d"] "d" "q" qaMixedPages
      { result := "ans", source_documents := [{ content := "a", page := none },
                                              { content := "b", page := some 1 }] }
      (by simp) rfl).2 (.error ("database is locked"))
  rw [h]
  rfl
